import Mathlib

/-!
Shallow embedding of the company-information query pipeline
(`app/core/workflow.py`, `app/services/{cache,data_retriever,query_parser,evaluator}.py`,
`app/models/{query,response}.py`, `app/constants/cache_constants.py`).

Modelling conventions:
* Python floats that carry confidence scores become `ℚ` (all constants in the
  source are decimal literals, exactly representable).
* Python strings become `String`; the string-processing primitives used by the
  source (`str.lower`, `str.strip`, `in`, `re.sub` on the concrete patterns,
  `str.split()` joining, slicing) are re-implemented structurally over
  `List Char` so that every definition evaluates by kernel reduction.
* Fallible calls to external collaborators (the LLM chains, the live evidence
  providers, the Redis client) are parameters of type `Except Unit α`: `.ok`
  is a normal return, `.error` is a raised exception.  Code that observably
  invokes a collaborator also reports the invocation in a `List Call` so that
  "X is never invoked" claims are statable.
* `pydantic` `Field(ge=0.0, le=1.0)` range validation is modelled as an
  explicit range test at each construction site where the value is not a
  literal constant; a failed validation is a raised exception, exactly as in
  pydantic.
-/

/-- Python `str.lower`, character-wise (`Char.toLower` handles the ASCII
letters, which is all the source's marker tests rely on). -/
def pyLower (s : List Char) : List Char := s.map Char.toLower

/-- Python `str.strip`: drop whitespace from both ends. -/
def pyStrip (s : List Char) : List Char :=
  ((s.dropWhile Char.isWhitespace).reverse.dropWhile Char.isWhitespace).reverse

/-- Python substring test `pat in s`. -/
def hasSub : List Char → List Char → Bool
  | [], pat => pat.isEmpty
  | s@(_ :: rest), pat => pat.isPrefixOf s || hasSub rest pat

/-- Truthiness of Python `str` (non-empty). -/
def pyTruthy (s : String) : Bool := s ≠ ""

/-- Truthiness of an optional string field read with `dict.get` (missing or
empty string are both falsy). -/
def pyTruthyOpt : Option String → Bool
  | none => false
  | some s => pyTruthy s

/- ===================== cache_constants.py ===================== -/

/-- The `QueryType` enum of `app/constants/cache_constants.py` (distinct from
the query-model enum below, exactly as in the source). -/
inductive CacheQueryType
  | news
  | location
  | business
  | investment
  | general
deriving DecidableEq

/-- `TTL_MAPPING` of `cache_constants.py`: every enum value is a key, so the
dictionary is a total function of the category. -/
def TTL_MAPPING : CacheQueryType → ℕ
  | .news => 3600
  | .location => 604800
  | .business => 43200
  | .investment => 21600
  | .general => 86400

/- ===================== services/cache.py ===================== -/

/-- `RedisCacheService._calculate_ttl`: `TTL_MAPPING.get(query_type, CacheTTL.DEFAULT)`;
all categories are present in the table, so the default never fires. -/
def calculate_ttl (query_type : CacheQueryType) : ℕ := TTL_MAPPING query_type

/-- The expiration that `RedisCacheService.set_cached_data` passes to
`redis.setex` (cache.py lines 92-94): the explicit `ttl` when given, otherwise
`_calculate_ttl(QueryType.GENERAL.value)`.  Note that `set_cached_data` has no
category parameter: the category table is consulted only at its GENERAL key. -/
def set_cached_data_expiration (ttl : Option ℕ) : ℕ :=
  match ttl with
  | some t => t
  | none => calculate_ttl CacheQueryType.general

/-- Recency-marker test of `RedisCacheService._generate_cache_key`:
`any(term in key_lower for term in ['news', 'latest', 'recent'])`. -/
def recencyMarker (key_lower : List Char) : Bool :=
  hasSub key_lower "news".data || hasSub key_lower "latest".data ||
    hasSub key_lower "recent".data

/-- The `key_content` string built by `_generate_cache_key` before hashing:
`f"{key_lower}:{source}:{today}"` when the lowered, stripped key contains a
recency marker, `f"{key_lower}:{source}"` otherwise.  `today` (the
`datetime.now().strftime('%Y-%m-%d')` date) is an explicit parameter. -/
def keyContent (key source today : String) : List Char :=
  let key_lower := pyStrip (pyLower key.data)
  if recencyMarker key_lower then
    key_lower ++ (':' :: source.data) ++ (':' :: today.data)
  else
    key_lower ++ (':' :: source.data)

/-- `RedisCacheService._generate_cache_key`: the SHA-256 hex digest is an
opaque deterministic function `hash` of the key content, prefixed with
`CachePrefix.COMPANY_INFO`. -/
def generate_cache_key (hash : List Char → String) (key source today : String) : String :=
  "company_info:" ++ hash (keyContent key source today)

/- ===================== models/query.py ===================== -/

/-- `QueryType` of `app/models/query.py`. -/
inductive QueryType
  | location
  | business_model
  | investments
  | news
  | customers
  | general
deriving DecidableEq

/-- `IntentAnalysis`: `extracted_entities` is a dict with exactly the four
list-valued keys the parser always populates, so it is flattened into four
fields. -/
structure IntentAnalysis where
  query_type : QueryType
  companies : List String
  products : List String
  people : List String
  attributes : List String
  time_constraints : Option String := none
deriving DecidableEq

/-- `AmbiguityCheck` of `models/query.py`. -/
structure AmbiguityCheck where
  is_ambiguous : Bool
  clarification_message : Option String := none
  possible_interpretations : Option (List String) := none
  confidence_score : ℚ
deriving DecidableEq

/- ===================== models/response.py ===================== -/

/-- `ValidationDetails` of `models/response.py` (the `supporting_sources`
field is never written or read by the pipeline and is omitted). -/
structure ValidationDetails where
  key_findings : List String := []
  summary : String := ""
deriving DecidableEq

/-- `ValidationResult` of `models/response.py`. -/
structure ValidationResult where
  is_valid : Bool
  confidence_score : ℚ
  missing_information : List String := []
  validation_details : ValidationDetails := {}
deriving DecidableEq

/-- `QueryResponse` of `models/response.py`. -/
structure QueryResponse where
  response : String
  confidence_score : ℚ
deriving DecidableEq

/- ===================== evidence payloads ===================== -/

/-- One evidence dict as built by the retrievers: keys `content`, `source`,
`query` and (Tavily only) `url`.  Reads of a missing `url` yield `""`. -/
structure EvidenceItem where
  content : String
  source : String
  query : String
  url : Option String := none
deriving DecidableEq

/-- A retriever payload `{"results": [...], "source": ...}`. -/
structure RetrievalResult where
  results : List EvidenceItem
  source : String
deriving DecidableEq

/-- Observable invocations of external collaborators and of the result
cache, used to state "X is (not) called" properties. -/
inductive Call
  | intentClassifier
  | ambiguityModel
  | wikiCacheGet
  | wikiCacheSet
  | wikiProvider
  | tavilyCacheGet
  | tavilyCacheSet
  | tavilyProvider
  | evaluatorModel
deriving DecidableEq

/- ===================== services/data_retriever.py ===================== -/

/-- `DataRetriever._generate_wikipedia_query`: template chosen by query type
for the first extracted company; `""` when no company was extracted. -/
def generate_wikipedia_query (ia : IntentAnalysis) : String :=
  match ia.companies with
  | [] => ""
  | company :: _ =>
    match ia.query_type with
    | .location => company ++ " headquarters location company"
    | .business_model => company ++ " business model revenue"
    | .investments => company ++ " investments portfolio companies"
    | .news => company ++ " company recent developments"
    | .customers => company ++ " customers clients"
    | .general => company ++ " company information"

/-- `DataRetriever._generate_tavily_query`: the first entry of the template
list for the query type, with the 7-day `after:` constraint for NEWS
(`last_week`, a formatted date, is an explicit parameter) and any
`time_constraints` appended.  Only `queries[0]` is used by the source. -/
def generate_tavily_query (last_week : String) (ia : IntentAnalysis) : String :=
  match ia.companies with
  | [] => ""
  | company :: _ =>
    let time_constraint : String :=
      if ia.query_type = .news then "after:" ++ last_week else ""
    let q0 : String :=
      match ia.query_type with
      | .news => "latest news about " ++ company ++ " " ++ time_constraint
      | .location => company ++ " headquarters current location"
      | .business_model => "How does " ++ company ++ " make money business model"
      | .investments => company ++ " investment portfolio companies"
      | .customers => company ++ " main customers current"
      | .general => company ++ " company overview current"
    match ia.time_constraints with
    | some tc => q0 ++ " " ++ tc
    | none => q0

/-- `DataRetriever.retrieve_wikipedia_data`.  `cacheGet` is the outcome of
`cache.get_cached_data(query, "wikipedia")` (a raised `CacheOperationError`
propagates: the call is outside the provider try-block and `log_error`
re-raises); `provider` is the outcome of `wikipedia.arun(query)`, whose
falsy (empty) result falls through to the empty payload.  The second
component records which collaborators were invoked.  Note that the source
never calls `set_cached_data`. -/
def retrieve_wikipedia_data (cacheGet : Except Unit (Option RetrievalResult))
    (provider : Except Unit String) (ia : IntentAnalysis) :
    Except Unit RetrievalResult × List Call :=
  if ia.companies.isEmpty then (.ok ⟨[], "Wikipedia"⟩, [])
  else
    let query := generate_wikipedia_query ia
    match cacheGet with
    | .error e => (.error e, [.wikiCacheGet])
    | .ok (some cached) => (.ok cached, [.wikiCacheGet])
    | .ok none =>
      match provider with
      | .ok wiki_result =>
        if pyTruthy wiki_result then
          (.ok ⟨[⟨wiki_result, "Wikipedia", query, none⟩], "Wikipedia"⟩,
            [.wikiCacheGet, .wikiProvider])
        else (.ok ⟨[], "Wikipedia"⟩, [.wikiCacheGet, .wikiProvider])
      | .error _ => (.ok ⟨[], "Wikipedia"⟩, [.wikiCacheGet, .wikiProvider])

/-- One element of the raw Tavily result list: either not a dict, or a dict
whose `content`/`url` keys may be absent. -/
inductive TavRaw
  | notDict
  | item (content : Option String) (url : Option String)
deriving DecidableEq

/-- `DataRetriever.retrieve_tavily_data`, same conventions as the Wikipedia
retriever.  For NEWS queries the dict items with truthy content are kept
(falling back to the raw list when none survive), then the final list
comprehension keeps dict items with truthy content.  No `set_cached_data`
call exists in the source. -/
def retrieve_tavily_data (cacheGet : Except Unit (Option RetrievalResult))
    (provider : Except Unit (List TavRaw)) (last_week : String) (ia : IntentAnalysis) :
    Except Unit RetrievalResult × List Call :=
  if ia.companies.isEmpty then (.ok ⟨[], "Tavily"⟩, [])
  else
    let query := generate_tavily_query last_week ia
    match cacheGet with
    | .error e => (.error e, [.tavilyCacheGet])
    | .ok (some cached) => (.ok cached, [.tavilyCacheGet])
    | .ok none =>
      match provider with
      | .error _ => (.ok ⟨[], "Tavily"⟩, [.tavilyCacheGet, .tavilyProvider])
      | .ok raw =>
        let processed :=
          if ia.query_type = .news then
            let filtered := raw.filter fun it =>
              match it with
              | .item c _ => pyTruthyOpt c
              | .notDict => false
            if filtered.isEmpty then raw else filtered
          else raw
        let results := processed.filterMap fun it =>
          match it with
          | .item c u =>
            if pyTruthyOpt c then some (⟨c.getD "", "Tavily", query, u⟩ : EvidenceItem)
            else none
          | .notDict => none
        (.ok ⟨results, "Tavily"⟩, [.tavilyCacheGet, .tavilyProvider])

/- ===================== services/query_parser.py ===================== -/

/-- The fields of the JSON dict produced by the ambiguity chain, with the
`dict.get` defaults of `QueryParser.check_ambiguity` already applied
(`is_ambiguous` defaults to `False`, `clarification_message` to `None`,
`possible_interpretations` to `[]`, `confidence_score` to `0.5`). -/
structure AmbiguityModelOut where
  is_ambiguous : Bool := false
  clarification_message : Option String := none
  possible_interpretations : List String := []
  confidence_score : ℚ := 1/2
deriving DecidableEq

namespace QueryParser

/-- `QueryParser.check_ambiguity` (the outer class, the one the workflow
instantiates): the whole body sits in a try-block whose handler returns
`AmbiguityCheck(is_ambiguous=False, confidence_score=0.5)`, so the function
is total — a raised model call (`modelResult = .error`) is absorbed.  The
pydantic range validation of `AmbiguityCheck.confidence_score` is the only
other failure inside the try-block and is absorbed the same way. -/
def check_ambiguity (modelResult : Except Unit AmbiguityModelOut) : AmbiguityCheck :=
  match modelResult with
  | .error _ => ⟨false, none, none, 1/2⟩
  | .ok r =>
    if 0 ≤ r.confidence_score ∧ r.confidence_score ≤ 1 then
      ⟨r.is_ambiguous, r.clarification_message, some r.possible_interpretations,
        r.confidence_score⟩
    else ⟨false, none, none, 1/2⟩

end QueryParser

/- ===================== services/evaluator.py ===================== -/

/-- The `EvaluationOutput` pydantic model parsed from the evaluator LLM;
`source_quality` is never read downstream and is omitted. -/
structure EvaluationOutput where
  main_points : List String
  missing_information : List String
  confidence_score : ℚ
  summary : String
deriving DecidableEq

/-- The fixed verdict `DataEvaluator.evaluate_data` returns when the combined
evidence list is empty. -/
def noDataVerdict : ValidationResult :=
  ⟨false, 0, ["No data retrieved"], ⟨[], "No data available for evaluation"⟩⟩

/-- `DataEvaluator.evaluate_data`.  The prompt assembly feeds only the opaque
LLM chain, whose parsed outcome is the `model` parameter (`.error` covers a
raised chain call and a failed `EvaluationOutput` parse — the parser enforces
`0 <= confidence_score <= 1`); the `retrieved_data` dict is represented by its
`"combined"` list, the only key the verdict depends on.  The explicit range
test models the pydantic validation of `ValidationResult.confidence_score`;
the except-branch of the source re-raises, hence `.error`.  The Boolean in
the result records whether the evaluator model was invoked. -/
def evaluate_data (combined : List EvidenceItem) (model : Except Unit EvaluationOutput) :
    Except Unit ValidationResult × Bool :=
  if combined.isEmpty then (.ok noDataVerdict, false)
  else
    match model with
    | .error e => (.error e, true)
    | .ok ev =>
      if 0 ≤ ev.confidence_score ∧ ev.confidence_score ≤ 1 then
        (.ok ⟨decide (ev.confidence_score ≥ 7/10), ev.confidence_score,
          ev.missing_information, ⟨ev.main_points, ev.summary⟩⟩, true)
      else (.error (), true)

/-- Scan for the closing bracket of a `re` match of `\[.*?\]`: the nearest
`]`, provided no newline intervenes (`.` does not match newlines). -/
def findClose : List Char → Option (List Char)
  | [] => none
  | c :: r => if c = ']' then some r else if c = '\n' then none else findClose r

/-- Fuel-driven worker for `re.sub(r'\[.*?\]', '', content)`: at each `[`
that closes before a newline, drop through the nearest `]` and continue after
it; otherwise keep the character.  One unit of fuel is spent per step and the
list shrinks at every step, so `fuel = length` never runs out. -/
def stripBracketsGo : ℕ → List Char → List Char
  | 0, l => l
  | _ + 1, [] => []
  | fuel + 1, c :: rest =>
    if c = '[' then
      match findClose rest with
      | some r => stripBracketsGo fuel r
      | none => c :: stripBracketsGo fuel rest
    else c :: stripBracketsGo fuel rest

/-- `re.sub(r'\[.*?\]', '', content)`. -/
def stripBrackets (l : List Char) : List Char := stripBracketsGo l.length l

/-- Fuel-driven worker for literal-pattern `re.sub(pat, '', content)`
(leftmost, non-overlapping, empty replacement). -/
def removeLiteralGo : ℕ → List Char → List Char → List Char
  | 0, _, l => l
  | _ + 1, _, [] => []
  | fuel + 1, pat, l@(c :: rest) =>
    if pat.isPrefixOf l then removeLiteralGo fuel pat (l.drop pat.length)
    else c :: removeLiteralGo fuel pat rest

/-- `re.sub(r'\(Opens in new window\)', '', content)` and friends: remove all
occurrences of a non-empty literal pattern. -/
def removeLiteral (pat l : List Char) : List Char := removeLiteralGo l.length pat l

/-- Fuel-driven worker for `re.sub(r'\.{2,}', '.', content)`: every maximal
run of dots collapses to one dot (runs of length one are unchanged by the
source's pattern, with the same outcome). -/
def collapseDotsGo : ℕ → List Char → List Char
  | 0, l => l
  | _ + 1, [] => []
  | fuel + 1, c :: rest =>
    if c = '.' then '.' :: collapseDotsGo fuel (rest.dropWhile (· = '.'))
    else c :: collapseDotsGo fuel rest

/-- `re.sub(r'\.{2,}', '.', content)`. -/
def collapseDots (l : List Char) : List Char := collapseDotsGo l.length l

/-- Python `str.split()`: whitespace-delimited words, empties discarded. -/
def wordsAux : List Char → List Char → List (List Char)
  | [], cur => if cur.isEmpty then [] else [cur.reverse]
  | c :: rest, cur =>
    if c.isWhitespace then
      if cur.isEmpty then wordsAux rest [] else cur.reverse :: wordsAux rest []
    else wordsAux rest (c :: cur)

/-- `' '.join(content.split())`: collapse runs of whitespace to single spaces
and strip the ends. -/
def collapseWs (l : List Char) : List Char :=
  List.intercalate [' '] (wordsAux l [])

/-- The per-item cleanup of the news branch of
`DataEvaluator._format_final_response` (evaluator.py lines 150-158): strip
bracketed annotations, remove the `(Opens in new window)` artifact, collapse
dot runs, collapse whitespace, then for contents over 200 characters keep the
first `[.!?]`-delimited sentence (when non-empty) plus a dot. -/
def cleanNewsContent (s : String) : String :=
  let c1 := stripBrackets s.data
  let c2 := removeLiteral "(Opens in new window)".data c1
  let c3 := collapseDots c2
  let c4 := collapseWs c3
  let c5 :=
    if 200 < c4.length then
      let first_sentence := c4.takeWhile fun c => !(c = '.' || c = '!' || c = '?')
      if first_sentence.isEmpty then c4 else first_sentence ++ ['.']
    else c4
  String.mk c5

/-- The bullet text for one surviving news item:
`"• <content> (Source: <source>[, <url>])"`, the url part only for a truthy
url, the source part only for a truthy source. -/
def newsBullet (content source : String) (url : Option String) : String :=
  let base := "• " ++ content
  if pyTruthyOpt url then
    base ++ " (Source: " ++ source ++ ", " ++ url.getD "" ++ ")"
  else if pyTruthy source then
    base ++ " (Source: " ++ source ++ ")"
  else base

/-- The news accumulation loop of `_format_final_response`: clean each item's
content, skip items cleaning to under 20 characters or to content already
seen, and record `(cleaned content, bullet)` for the rest.  `seen` is the
`seen_content` set. -/
def buildNewsItems : List EvidenceItem → List String → List (String × String)
  | [], _ => []
  | item :: rest, seen =>
    let content := cleanNewsContent item.content
    if content.length < 20 ∨ content ∈ seen then buildNewsItems rest seen
    else (content, newsBullet content item.source item.url) ::
      buildNewsItems rest (content :: seen)

/-- The news-query test of `_format_final_response`:
`any("news" in str(item.get("query", "")).lower() for item in combined_data)`. -/
def isNewsQuery (combined : List EvidenceItem) : Bool :=
  combined.any fun item => hasSub (pyLower item.query.data) "news".data

/-- Python `main_fact[:200].rsplit('.', 1)[0]`: the prefix before the last
dot of the first 200 characters (the whole prefix when it has no dot). -/
def beforeLastDot (l : List Char) : List Char :=
  if l.contains '.' then (((l.reverse).dropWhile fun c => c ≠ '.').drop 1).reverse
  else l

/-- `DataEvaluator._format_final_response`.  The validation-result parameter
is optional exactly as the Python `not validation_result` test allows; the
outer try-except only guards attribute errors that the typed model rules
out. -/
def format_final_response (validation_result : Option ValidationResult)
    (combined : List EvidenceItem) : String :=
  match validation_result with
  | none =>
    "I apologize, but I couldn\x27t find enough reliable information to answer your question accurately."
  | some v =>
    if !v.is_valid then
      "I apologize, but I couldn\x27t find enough reliable information to answer your question accurately."
    else
      match combined with
      | [] => "No relevant information found."
      | first :: _ =>
        if isNewsQuery combined then
          let news_items := buildNewsItems combined []
          if !news_items.isEmpty then
            "Latest news:\n\n" ++
              String.intercalate "\n\n" ((news_items.take 3).map Prod.snd)
          else "No recent news found for this query."
        else
          let main_fact : String :=
            match v.validation_details.key_findings with
            | f :: _ => String.mk (pyStrip f.data)
            | [] =>
              let c := String.mk (pyStrip first.content.data)
              if 200 < c.length then String.mk (beforeLastDot (c.data.take 200) ++ ['.'])
              else c
          let sources := (((combined.take 2).map (·.source)).filter pyTruthy).dedup
          let source_citation :=
            if !sources.isEmpty then " (Source: " ++ String.intercalate ", " sources ++ ")"
            else ""
          let response :=
            if main_fact.data.getLast? ≠ some '.' then main_fact ++ "." else main_fact
          response ++ source_citation

/- ===================== core/workflow.py ===================== -/

/-- `WorkflowState` of `core/workflow.py`: the mutable aggregate threaded
through the graph. -/
structure WorkflowState where
  query : String
  intent : Option IntentAnalysis := none
  ambiguity_check : Option AmbiguityCheck := none
  wiki_results : Option RetrievalResult := none
  tavily_results : Option RetrievalResult := none
  evaluation : Option ValidationResult := none
  response : Option QueryResponse := none
  requires_clarification : Bool := false

/-- Outcomes of one pipeline run's collaborator calls: each field is what the
corresponding external call would return (or raise) if it were made.  The
7-day `last_week` date string of the Tavily query builder rides along. -/
structure Env where
  intentResult : Except Unit IntentAnalysis
  ambiguityModelOut : Except Unit AmbiguityModelOut
  wikiCacheGet : Except Unit (Option RetrievalResult)
  wikiProvider : Except Unit String
  tavilyCacheGet : Except Unit (Option RetrievalResult)
  tavilyProvider : Except Unit (List TavRaw)
  evalModel : Except Unit EvaluationOutput
  last_week : String

/-- The `analyze_intent` node: adopt the classifier result, or degrade to a
maximally ambiguous state when the call raises. -/
def analyze_intent_node (intentResult : Except Unit IntentAnalysis)
    (s : WorkflowState) : WorkflowState × List Call :=
  match intentResult with
  | .ok intent =>
    ({s with intent := some intent, ambiguity_check := none, requires_clarification := false},
      [.intentClassifier])
  | .error _ =>
    let check : AmbiguityCheck := ⟨true, some "Failed to analyze query intent", none, 0⟩
    ({s with intent := none, ambiguity_check := some check, requires_clarification := true},
      [.intentClassifier])

/-- The `check_ambiguity` node.  `checkerResult` is the outcome of
`self.query_parser.check_ambiguity(...)` as observed by the node; in the
assembled pipeline it is always `.ok (QueryParser.check_ambiguity ...)`
because that method catches every exception itself. -/
def check_ambiguity_node (checkerResult : Except Unit AmbiguityCheck)
    (s : WorkflowState) : WorkflowState × List Call :=
  match s.intent with
  | none =>
    let check : AmbiguityCheck := ⟨true, some "Could not determine query intent", none, 0⟩
    ({s with requires_clarification := true, ambiguity_check := some check}, [])
  | some _ =>
    match checkerResult with
    | .ok check =>
      ({s with ambiguity_check := some check, requires_clarification := check.is_ambiguous},
        [.ambiguityModel])
    | .error _ =>
      let check : AmbiguityCheck := ⟨true, some "Error checking query ambiguity", none, 0⟩
      ({s with requires_clarification := true, ambiguity_check := some check},
        [.ambiguityModel])

/-- The `retrieve_wiki_data` node: skip (leaving the results field null) when
intent is absent or clarification is pending; degrade a raised retriever call
to an empty tagged payload. -/
def retrieve_wiki_node (cacheGet : Except Unit (Option RetrievalResult))
    (provider : Except Unit String) (s : WorkflowState) : WorkflowState × List Call :=
  match s.intent with
  | none => ({s with wiki_results := none}, [])
  | some ia =>
    if s.requires_clarification then ({s with wiki_results := none}, [])
    else
      match retrieve_wikipedia_data cacheGet provider ia with
      | (.ok wiki_data, calls) => ({s with wiki_results := some wiki_data}, calls)
      | (.error _, calls) => ({s with wiki_results := some ⟨[], "Wikipedia"⟩}, calls)

/-- The `retrieve_tavily_data` node, symmetric to the Wikipedia node. -/
def retrieve_tavily_node (cacheGet : Except Unit (Option RetrievalResult))
    (provider : Except Unit (List TavRaw)) (last_week : String)
    (s : WorkflowState) : WorkflowState × List Call :=
  match s.intent with
  | none => ({s with tavily_results := none}, [])
  | some ia =>
    if s.requires_clarification then ({s with tavily_results := none}, [])
    else
      match retrieve_tavily_data cacheGet provider last_week ia with
      | (.ok tavily_data, calls) => ({s with tavily_results := some tavily_data}, calls)
      | (.error _, calls) => ({s with tavily_results := some ⟨[], "Tavily"⟩}, calls)

/-- The fixed invalid verdict substituted when clarification is pending. -/
def clarificationVerdict : ValidationResult :=
  ⟨false, 0, ["Query requires clarification"], {}⟩

/-- The fixed invalid verdict substituted when evaluation raises. -/
def evaluationErrorVerdict : ValidationResult :=
  ⟨false, 0, ["Error evaluating data"], {}⟩

/-- The `evaluate_data` node of the workflow.  When intent is absent (and
clarification somehow not pending) the `QueryAnalysis(intent_analysis=None)`
construction raises inside the try-block, landing in the error verdict
without reaching the evaluator model. -/
def evaluate_node (model : Except Unit EvaluationOutput) (s : WorkflowState) :
    WorkflowState × List Call :=
  if s.requires_clarification then ({s with evaluation := some clarificationVerdict}, [])
  else
    match s.intent with
    | none => ({s with evaluation := some evaluationErrorVerdict}, [])
    | some _ =>
      let wiki_results := match s.wiki_results with | some r => r.results | none => []
      let tavily_results := match s.tavily_results with | some r => r.results | none => []
      match evaluate_data (wiki_results ++ tavily_results) model with
      | (.ok evaluation, invoked) =>
        ({s with evaluation := some evaluation}, if invoked then [.evaluatorModel] else [])
      | (.error _, invoked) =>
        ({s with evaluation := some evaluationErrorVerdict},
          if invoked then [.evaluatorModel] else [])

/-- The `generate_response` node.  The final range test models the pydantic
validation of `QueryResponse.confidence_score`; its failure is caught by the
node's except-branch. -/
def generate_response_node (s : WorkflowState) : WorkflowState × List Call :=
  if s.requires_clarification then
    let clarification_msg :=
      match s.ambiguity_check with
      | some check =>
        match check.clarification_message with
        | some m => if pyTruthy m then m else "Please clarify your query"
        | none => "Please clarify your query"
      | none => "Please clarify your query"
    ({s with response := some ⟨clarification_msg, 0⟩}, [])
  else
    let notEnough : QueryResponse :=
      ⟨"Could not find enough reliable information to answer your query", 0⟩
    match s.evaluation with
    | none => ({s with response := some notEnough}, [])
    | some evaluation =>
      if !evaluation.is_valid then ({s with response := some notEnough}, [])
      else
        let wiki := match s.wiki_results with | some r => r.results | none => []
        let tavily := match s.tavily_results with | some r => r.results | none => []
        let response_text := format_final_response (some evaluation) (wiki ++ tavily)
        if 0 ≤ evaluation.confidence_score ∧ evaluation.confidence_score ≤ 1 then
          ({s with response := some ⟨response_text, evaluation.confidence_score⟩}, [])
        else
          ({s with response := some ⟨"An error occurred while generating the response", 0⟩}, [])

/-- The compiled graph: `analyze_intent → check_ambiguity → {wiki ∥ tavily} →
evaluate → generate_response`.  The two retrieval nodes patch disjoint state
fields, so the fan-out/fan-in join is their sequential composition.  The
`check_ambiguity` node observes `.ok (QueryParser.check_ambiguity ...)`
because `QueryParser.check_ambiguity` is total. -/
def runPipeline (env : Env) (query : String) : WorkflowState × List Call :=
  let r1 := analyze_intent_node env.intentResult { query := query }
  let r2 := check_ambiguity_node (.ok (QueryParser.check_ambiguity env.ambiguityModelOut)) r1.1
  let r3 := retrieve_wiki_node env.wikiCacheGet env.wikiProvider r2.1
  let r4 := retrieve_tavily_node env.tavilyCacheGet env.tavilyProvider env.last_week r3.1
  let r5 := evaluate_node env.evalModel r4.1
  let r6 := generate_response_node r5.1
  (r6.1, r1.2 ++ r2.2 ++ r3.2 ++ r4.2 ++ r5.2 ++ r6.2)

/-- `CompanyInfoWorkflow.process_query`: run the graph and return its
response; every raise is caught, and a missing response degrades to the fixed
failure response (the type of `query` discharges the string check). -/
def process_query (env : Env) (query : String) : QueryResponse × List Call :=
  let r := runPipeline env query
  (match r.1.response with
   | some response => response
   | none => ⟨"Failed to process query", 0⟩, r.2)

/- ===================== concrete fixtures ===================== -/

/-- A concrete intent with one extracted company, for witnesses and
counterexamples. -/
def iaTesla : IntentAnalysis := ⟨.general, ["Tesla"], [], [], [], none⟩

/-- A state that has passed intent analysis. -/
def stateWithIntent : WorkflowState := { query := "Where is Tesla?", intent := some iaTesla }

/-- A state in which clarification is pending and intent is absent. -/
def stateClarify : WorkflowState :=
  { query := "Tell me about Midas", intent := none, requires_clarification := true }

/-- A raw ambiguity-model output flagging an ambiguous query. -/
def ambMidas : AmbiguityModelOut :=
  ⟨true, some "Did you mean company X or Y?", [], 9/10⟩

/-- An environment whose classifier succeeds and whose ambiguity model flags
ambiguity; every other collaborator raises if invoked. -/
def envClarify : Env :=
  ⟨.ok iaTesla, .ok ambMidas, .error (), .error (), .error (), .error (), .error (), ""⟩

/-- A concrete evidence item. -/
def evItem : EvidenceItem :=
  ⟨"Tesla is an American electric vehicle manufacturer.", "Wikipedia",
    "Tesla company information", none⟩

/-- An evaluator-model output with the boundary confidence 0.699. -/
def out699 : EvaluationOutput := ⟨[], [], 699/1000, "s"⟩

/-- An evaluator-model output with the boundary confidence 0.7. -/
def out700 : EvaluationOutput := ⟨[], [], 7/10, "s"⟩

/-- A news evidence item whose content carries extra whitespace and a
bracketed annotation. -/
def newsItemA : EvidenceItem :=
  ⟨"Apple  announced a [update] new iPhone today", "Tavily", "apple news", none⟩

/-- A news evidence item whose content equals `newsItemA`'s after cleanup. -/
def newsItemB : EvidenceItem :=
  ⟨"Apple announced a new iPhone today", "Wikipedia", "apple news", none⟩

/-- A valid verdict for the news-digest scenario. -/
def newsVerdict : ValidationResult := ⟨true, 9/10, [], ⟨[], ""⟩⟩

/-- A cached payload used as a concrete cache-hit value. -/
def cachedPayload : RetrievalResult := ⟨[evItem], "Wikipedia"⟩

/- ===================== theorems ===================== -/

/-- Claim C6, counterexample: `set_cached_data` with `ttl` omitted does not
apply the category table's TTL to a NEWS entry — the applied expiration
(86400) differs from `TTL_MAPPING` at NEWS (3600). -/
theorem set_cached_data_ttl_cex :
    ¬ (set_cached_data_expiration none = calculate_ttl CacheQueryType.news) := by
  decide

/-- Claim C6, amended: when `ttl` is omitted, `set_cached_data` always
resolves the expiration at the GENERAL key of the category table — 86400
seconds — regardless of the entry's query category; the table itself maps
NEWS to 3600, LOCATION to 604800, BUSINESS to 43200, INVESTMENT to 21600 and
GENERAL to 86400. -/
theorem set_cached_data_ttl_general :
    (∀ t : ℕ, set_cached_data_expiration (some t) = t)
    ∧ set_cached_data_expiration none = TTL_MAPPING CacheQueryType.general
    ∧ set_cached_data_expiration none = 86400
    ∧ TTL_MAPPING CacheQueryType.news = 3600
    ∧ TTL_MAPPING CacheQueryType.location = 604800
    ∧ TTL_MAPPING CacheQueryType.business = 43200
    ∧ TTL_MAPPING CacheQueryType.investment = 21600
    ∧ TTL_MAPPING CacheQueryType.general = 86400 :=
  ⟨fun _ => rfl, rfl, rfl, rfl, rfl, rfl, rfl, rfl⟩

/-- Claim C6, witness: the amended statement at concrete inputs. -/
theorem set_cached_data_ttl_general_witness :
    set_cached_data_expiration (some 42) = 42
    ∧ set_cached_data_expiration none = 86400 :=
  ⟨set_cached_data_ttl_general.1 42, set_cached_data_ttl_general.2.2.1⟩

/-- Claim C10: with an empty combined evidence list, `evaluate_data` returns
the fixed invalid verdict (`is_valid = false`, confidence 0, missing
information `["No data retrieved"]`) and the evaluator model is not
invoked, whatever that model call would have produced. -/
theorem evaluate_data_empty_no_model_call :
    ∀ model : Except Unit EvaluationOutput,
      evaluate_data [] model = (.ok noDataVerdict, false) :=
  fun _ => rfl

/-- Claim C10, witness: the statement at a concrete model outcome. -/
theorem evaluate_data_empty_no_model_call_witness :
    evaluate_data [] (.error ()) = (.ok noDataVerdict, false) :=
  evaluate_data_empty_no_model_call (.error ())

theorem evaluate_data_validity_threshold :
    (∀ (combined : List EvidenceItem) (model : Except Unit EvaluationOutput)
        (v : ValidationResult) (b : Bool),
        evaluate_data combined model = (.ok v, b) →
        (v.is_valid = true ↔ v.confidence_score ≥ 7/10))
    ∧ (∀ (combined : List EvidenceItem) (ev : EvaluationOutput),
        combined ≠ [] → ev.confidence_score = 699/1000 →
        ∃ v b, evaluate_data combined (.ok ev) = (.ok v, b)
          ∧ v.is_valid = false ∧ v.confidence_score = 699/1000)
    ∧ (∀ (combined : List EvidenceItem) (ev : EvaluationOutput),
        combined ≠ [] → ev.confidence_score = 7/10 →
        ∃ v b, evaluate_data combined (.ok ev) = (.ok v, b)
          ∧ v.is_valid = true ∧ v.confidence_score = 7/10) := by
  have hmain : ∀ (combined : List EvidenceItem) (model : Except Unit EvaluationOutput)
      (v : ValidationResult) (b : Bool),
      evaluate_data combined model = (.ok v, b) →
      (v.is_valid = true ↔ v.confidence_score ≥ 7/10) := by
    intro combined model v b h
    unfold evaluate_data at h
    split at h
    · simp only [Prod.mk.injEq, Except.ok.injEq] at h
      obtain ⟨rfl, -⟩ := h
      simp [noDataVerdict]
    · split at h
      · simp at h
      · split at h
        · simp only [Prod.mk.injEq, Except.ok.injEq] at h
          obtain ⟨rfl, -⟩ := h
          simp [decide_eq_true_iff]
        · simp at h
  refine ⟨hmain, ?_, ?_⟩
  · intro combined ev hne hc
    have hempty : combined.isEmpty = false := by
      cases combined with
      | nil => simp at hne
      | cons a l => rfl
    have hcond : 0 ≤ ev.confidence_score ∧ ev.confidence_score ≤ 1 := by
      rw [hc]; constructor <;> norm_num
    refine ⟨⟨decide (ev.confidence_score ≥ 7/10), ev.confidence_score,
        ev.missing_information, ⟨ev.main_points, ev.summary⟩⟩, true, ?_, ?_, hc⟩
    · unfold evaluate_data
      rw [hempty]
      simp only [Bool.false_eq_true, if_false]
      rw [if_pos hcond]
    · simp only [hc]
      exact decide_eq_false (by norm_num)
  · intro combined ev hne hc
    have hempty : combined.isEmpty = false := by
      cases combined with
      | nil => simp at hne
      | cons a l => rfl
    have hcond : 0 ≤ ev.confidence_score ∧ ev.confidence_score ≤ 1 := by
      rw [hc]; constructor <;> norm_num
    refine ⟨⟨decide (ev.confidence_score ≥ 7/10), ev.confidence_score,
        ev.missing_information, ⟨ev.main_points, ev.summary⟩⟩, true, ?_, ?_, hc⟩
    · unfold evaluate_data
      rw [hempty]
      simp only [Bool.false_eq_true, if_false]
      rw [if_pos hcond]
    · simp only [hc]
      exact decide_eq_true (by norm_num)

/-- Claim C5, witness: the threshold statement at concrete inputs, including
both boundary confidences. -/
theorem evaluate_data_validity_threshold_witness :
    (noDataVerdict.is_valid = true ↔ noDataVerdict.confidence_score ≥ 7/10)
    ∧ (∃ v b, evaluate_data [evItem] (.ok out699) = (.ok v, b)
        ∧ v.is_valid = false ∧ v.confidence_score = 699/1000)
    ∧ (∃ v b, evaluate_data [evItem] (.ok out700) = (.ok v, b)
        ∧ v.is_valid = true ∧ v.confidence_score = 7/10) :=
  ⟨evaluate_data_validity_threshold.1 [] (.error ()) noDataVerdict false rfl,
   evaluate_data_validity_threshold.2.1 [evItem] out699 (by decide) rfl,
   evaluate_data_validity_threshold.2.2 [evItem] out700 (by decide) rfl⟩

/-- Appending to a fixed string on the left is injective. -/
theorem string_append_left_cancel {a s t : String} (h : a ++ s = a ++ t) : s = t := by
  apply String.ext
  have h2 := congrArg String.data h
  rw [String.data_append, String.data_append] at h2
  exact List.append_cancel_left h2

/-- Claim C7: for any deterministic injective digest, a logical key whose
lowered, stripped form contains a recency marker yields different cache keys
on different dates; one without a marker yields the same key on any two
dates; and equal dates always yield equal keys. -/
theorem generate_cache_key_recency_binding
    (hash : List Char → String) (hinj : Function.Injective hash)
    (key source d1 d2 : String) :
    (recencyMarker (pyStrip (pyLower key.data)) = true → d1 ≠ d2 →
      generate_cache_key hash key source d1 ≠ generate_cache_key hash key source d2)
    ∧ (recencyMarker (pyStrip (pyLower key.data)) = false →
      generate_cache_key hash key source d1 = generate_cache_key hash key source d2)
    ∧ (d1 = d2 →
      generate_cache_key hash key source d1 = generate_cache_key hash key source d2) := by
  refine ⟨?_, ?_, ?_⟩
  · intro hm hne heq
    apply hne
    unfold generate_cache_key at heq
    have h1 := hinj (string_append_left_cancel heq)
    unfold keyContent at h1
    rw [if_pos hm, if_pos hm] at h1
    have h2 := List.append_cancel_left h1
    apply String.ext
    injection h2
  · intro hm
    unfold generate_cache_key keyContent
    rw [if_neg, if_neg] <;> simp [hm]
  · intro h
    rw [h]

/-- Claim C7, witness: the spec's two concrete scenarios, with the digest
instantiated to an injective function. -/
theorem generate_cache_key_recency_binding_witness :
    generate_cache_key String.mk "latest Tesla news" "web" "2025-01-01" ≠
      generate_cache_key String.mk "latest Tesla news" "web" "2025-01-02"
    ∧ generate_cache_key String.mk "Tesla headquarters" "web" "2025-01-01" =
      generate_cache_key String.mk "Tesla headquarters" "web" "2025-01-02" := by
  have hinj : Function.Injective String.mk := fun a b h => congrArg String.data h
  constructor
  · exact (generate_cache_key_recency_binding String.mk hinj
      "latest Tesla news" "web" "2025-01-01" "2025-01-02").1 (by decide) (by decide)
  · exact (generate_cache_key_recency_binding String.mk hinj
      "Tesla headquarters" "web" "2025-01-01" "2025-01-02").2.1 (by decide)

/-- Claim C1, counterexample: on a cache miss with a successful provider
call, neither retriever performs the cache write the claim requires — the
recorded calls contain no cache-set operation. -/
theorem retriever_never_stores_cex :
    Call.wikiCacheSet ∉
      (retrieve_wikipedia_data (.ok none)
        (.ok "Tesla, Inc. is an American electric vehicle company.") iaTesla).2
    ∧ Call.tavilyCacheSet ∉
      (retrieve_tavily_data (.ok none)
        (.ok [TavRaw.item (some "Tesla opened a new factory.") none]) "2025-01-01" iaTesla).2 := by
  decide

/-- Claim C1, amended: each retriever (once a company was extracted) first
queries the result cache; on a hit it returns the cached payload verbatim
with no provider call; on a miss it calls its live provider and returns the
outcome without ever storing it — no cache write occurs. -/
theorem retrievers_cache_read_no_write :
    ∀ (cg : Except Unit (Option RetrievalResult)) (pw : Except Unit String)
      (pt : Except Unit (List TavRaw)) (lw : String) (ia : IntentAnalysis),
      ia.companies ≠ [] →
      (∀ d, cg = .ok (some d) →
        retrieve_wikipedia_data cg pw ia = (.ok d, [.wikiCacheGet])
        ∧ retrieve_tavily_data cg pt lw ia = (.ok d, [.tavilyCacheGet]))
      ∧ (cg = .ok none →
        (Call.wikiProvider ∈ (retrieve_wikipedia_data cg pw ia).2
          ∧ Call.wikiCacheSet ∉ (retrieve_wikipedia_data cg pw ia).2)
        ∧ (Call.tavilyProvider ∈ (retrieve_tavily_data cg pt lw ia).2
          ∧ Call.tavilyCacheSet ∉ (retrieve_tavily_data cg pt lw ia).2)) := by
  intro cg pw pt lw ia hne
  have hempty : ia.companies.isEmpty = false := by
    cases h : ia.companies with
    | nil => exact absurd h hne
    | cons a l => rfl
  constructor
  · rintro d rfl
    constructor
    · unfold retrieve_wikipedia_data
      rw [hempty]
      simp
    · unfold retrieve_tavily_data
      rw [hempty]
      simp
  · rintro rfl
    have hwiki : (retrieve_wikipedia_data (.ok none) pw ia).2
        = [.wikiCacheGet, .wikiProvider] := by
      unfold retrieve_wikipedia_data
      rw [hempty]
      cases pw with
      | ok w =>
        by_cases hw : pyTruthy w = true
        · simp [hw]
        · simp [hw]
      | error e => simp
    have htav : (retrieve_tavily_data (.ok none) pt lw ia).2
        = [.tavilyCacheGet, .tavilyProvider] := by
      unfold retrieve_tavily_data
      rw [hempty]
      cases pt with
      | ok raw => simp
      | error e => simp
    rw [hwiki, htav]
    refine ⟨⟨?_, ?_⟩, ?_, ?_⟩ <;> decide

/-- Claim C1, witness: the amended statement at a concrete cache hit and a
concrete cache miss. -/
theorem retrievers_cache_read_no_write_witness :
    (retrieve_wikipedia_data (.ok (some cachedPayload)) (.error ()) iaTesla
        = (.ok cachedPayload, [.wikiCacheGet])
      ∧ retrieve_tavily_data (.ok (some cachedPayload)) (.error ()) "" iaTesla
        = (.ok cachedPayload, [.tavilyCacheGet]))
    ∧ ((Call.wikiProvider ∈ (retrieve_wikipedia_data (.ok none) (.error ()) iaTesla).2
        ∧ Call.wikiCacheSet ∉ (retrieve_wikipedia_data (.ok none) (.error ()) iaTesla).2)
      ∧ (Call.tavilyProvider ∈ (retrieve_tavily_data (.ok none) (.error ()) "" iaTesla).2
        ∧ Call.tavilyCacheSet ∉ (retrieve_tavily_data (.ok none) (.error ()) "" iaTesla).2)) :=
  ⟨(retrievers_cache_read_no_write (.ok (some cachedPayload)) (.error ()) (.error ())
      "" iaTesla (by decide)).1 cachedPayload rfl,
   (retrievers_cache_read_no_write (.ok none) (.error ()) (.error ())
      "" iaTesla (by decide)).2 rfl⟩

/-- Claim C3, counterexample: when the ambiguity model call raises,
`QueryParser.check_ambiguity` absorbs the exception and returns
`is_ambiguous = false` (confidence 0.5), so the pipeline node leaves
`requires_clarification` false — it continues as unambiguous instead of
degrading. -/
theorem ambiguity_model_error_cex :
    (check_ambiguity_node (.ok (QueryParser.check_ambiguity (.error ())))
      stateWithIntent).1.requires_clarification = false
    ∧ QueryParser.check_ambiguity (.error ()) = ⟨false, none, none, 1/2⟩ := by
  constructor <;> rfl

/-- Claim C3, amended: when the underlying ambiguity model call raises,
`QueryParser.check_ambiguity` catches it and returns a non-ambiguous default
(`is_ambiguous = false`, confidence 0.5), so the pipeline continues with
`needs_clarification = false`; only an exception raised by the checker call
itself (unreachable through `QueryParser`, whose body catches everything)
would make the workflow node degrade to `needs_clarification = true`. -/
theorem ambiguity_checker_error_handling :
    ∀ (s : WorkflowState) (ia : IntentAnalysis), s.intent = some ia →
      QueryParser.check_ambiguity (.error ()) = ⟨false, none, none, 1/2⟩
      ∧ (check_ambiguity_node (.ok (QueryParser.check_ambiguity (.error ())))
          s).1.requires_clarification = false
      ∧ (check_ambiguity_node (.error ()) s).1.requires_clarification = true := by
  intro s ia h
  refine ⟨rfl, ?_, ?_⟩
  · unfold check_ambiguity_node
    rw [h]
    rfl
  · unfold check_ambiguity_node
    rw [h]

/-- Claim C3, witness: the amended statement at a concrete post-intent
state. -/
theorem ambiguity_checker_error_handling_witness :
    QueryParser.check_ambiguity (.error ()) = ⟨false, none, none, 1/2⟩
    ∧ (check_ambiguity_node (.ok (QueryParser.check_ambiguity (.error ())))
        stateWithIntent).1.requires_clarification = false
    ∧ (check_ambiguity_node (.error ()) stateWithIntent).1.requires_clarification = true :=
  ambiguity_checker_error_handling stateWithIntent iaTesla rfl

/-- Claim C4, counterexample: in a state with absent intent and pending
clarification, the retrieval nodes set their results field to null rather
than to the empty evidence list tagged with the source name. -/
theorem retrieval_skip_null_cex :
    (retrieve_wiki_node (.error ()) (.error ()) stateClarify).1.wiki_results ≠
      some ⟨[], "Wikipedia"⟩
    ∧ (retrieve_tavily_node (.error ()) (.error ()) "" stateClarify).1.tavily_results ≠
      some ⟨[], "Tavily"⟩ := by
  decide

/-- Claim C4, amended: whenever intent is absent or `needs_clarification`
is true, each retrieval stage skips by setting its results field to null
(leaving the evidence unset); on the skip path it never returns the empty
evidence list tagged with its source name. -/
theorem retrieval_skip_sets_null :
    ∀ (cg : Except Unit (Option RetrievalResult)) (pw : Except Unit String)
      (pt : Except Unit (List TavRaw)) (lw : String) (s : WorkflowState),
      s.intent = none ∨ s.requires_clarification = true →
      ((retrieve_wiki_node cg pw s).1.wiki_results = none
        ∧ (retrieve_wiki_node cg pw s).1.wiki_results ≠ some ⟨[], "Wikipedia"⟩)
      ∧ ((retrieve_tavily_node cg pt lw s).1.tavily_results = none
        ∧ (retrieve_tavily_node cg pt lw s).1.tavily_results ≠ some ⟨[], "Tavily"⟩) := by
  intro cg pw pt lw s h
  have hwiki : (retrieve_wiki_node cg pw s).1.wiki_results = none := by
    cases h with
    | inl h => simp [retrieve_wiki_node, h]
    | inr h =>
      unfold retrieve_wiki_node
      cases hi : s.intent with
      | none => rfl
      | some ia => simp [h]
  have htavily : (retrieve_tavily_node cg pt lw s).1.tavily_results = none := by
    cases h with
    | inl h => simp [retrieve_tavily_node, h]
    | inr h =>
      unfold retrieve_tavily_node
      cases hi : s.intent with
      | none => rfl
      | some ia => simp [h]
  exact ⟨⟨hwiki, by simp [hwiki]⟩, htavily, by simp [htavily]⟩

/-- Claim C4, witness: the amended statement at a clarification-pending
state with absent intent. -/
theorem retrieval_skip_sets_null_witness :
    ((retrieve_wiki_node (.error ()) (.error ()) stateClarify).1.wiki_results = none
      ∧ (retrieve_wiki_node (.error ()) (.error ()) stateClarify).1.wiki_results
        ≠ some ⟨[], "Wikipedia"⟩)
    ∧ ((retrieve_tavily_node (.error ()) (.error ()) "" stateClarify).1.tavily_results = none
      ∧ (retrieve_tavily_node (.error ()) (.error ()) "" stateClarify).1.tavily_results
        ≠ some ⟨[], "Tavily"⟩) :=
  retrieval_skip_sets_null (.error ()) (.error ()) (.error ()) "" stateClarify (Or.inr rfl)

/-- The response node always stores a response whose confidence lies in
[0, 1]: every branch writes either the literal 0 or a score guarded by the
pydantic range check. -/
theorem generate_response_bounds (s : WorkflowState) :
    ∃ r : QueryResponse, (generate_response_node s).1.response = some r
      ∧ 0 ≤ r.confidence_score ∧ r.confidence_score ≤ 1 := by
  simp only [generate_response_node]
  repeat' split
  all_goals exact ⟨_, rfl, by simp_all, by simp_all⟩

/-- Claim C2: `process_query` is total by construction (its Lean type
returns a `QueryResponse` for every environment, mirroring the catch-all
handler), and the returned confidence score always lies in [0, 1]. -/
theorem process_query_confidence_bounds :
    ∀ (env : Env) (query : String),
      0 ≤ (process_query env query).1.confidence_score
      ∧ (process_query env query).1.confidence_score ≤ 1 := by
  intro env query
  obtain ⟨r, hr, h0, h1⟩ := generate_response_bounds
    ((evaluate_node env.evalModel
      ((retrieve_tavily_node env.tavilyCacheGet env.tavilyProvider env.last_week
        ((retrieve_wiki_node env.wikiCacheGet env.wikiProvider
          ((check_ambiguity_node (.ok (QueryParser.check_ambiguity env.ambiguityModelOut))
            ((analyze_intent_node env.intentResult { query := query }).1)).1)).1)).1)).1)
  simp only [process_query, runPipeline]
  rw [hr]
  exact ⟨h0, h1⟩

/-- Claim C2, witness: the bounds at a concrete environment and query. -/
theorem process_query_confidence_bounds_witness :
    0 ≤ (process_query envClarify "Tell me about Midas").1.confidence_score
    ∧ (process_query envClarify "Tell me about Midas").1.confidence_score ≤ 1 :=
  process_query_confidence_bounds envClarify "Tell me about Midas"

/-- Claim C8: when intent analysis succeeds and the ambiguity model flags
the query as ambiguous with a non-empty clarification message (and a valid
confidence), `process_query` returns exactly that message with confidence 0,
and the only collaborators invoked are the intent classifier and the
ambiguity model — neither retrieval provider, nor the cache, nor the
evaluator model is touched. -/
theorem run_ambiguous_shortcircuit :
    ∀ (env : Env) (query msg : String) (ia : IntentAnalysis) (amb : AmbiguityModelOut),
      env.intentResult = .ok ia →
      env.ambiguityModelOut = .ok amb →
      amb.is_ambiguous = true →
      amb.clarification_message = some msg →
      msg ≠ "" →
      0 ≤ amb.confidence_score → amb.confidence_score ≤ 1 →
      (process_query env query).1 = ⟨msg, 0⟩
      ∧ (process_query env query).2 = [Call.intentClassifier, Call.ambiguityModel] := by
  intro env query msg ia amb hint hamb hflag hmsg hne h0 h1
  have hcheck : QueryParser.check_ambiguity env.ambiguityModelOut
      = ⟨true, some msg, some amb.possible_interpretations, amb.confidence_score⟩ := by
    rw [hamb]
    simp [QueryParser.check_ambiguity, hflag, hmsg, h0, h1]
  have htruthy : pyTruthy msg = true := by
    simp [pyTruthy, hne]
  simp only [process_query, runPipeline, hint, analyze_intent_node, hcheck,
    check_ambiguity_node, retrieve_wiki_node, retrieve_tavily_node, evaluate_node,
    generate_response_node, htruthy]
  simp [htruthy]

/-- Claim C8, witness: the short-circuit at a concrete environment. -/
theorem run_ambiguous_shortcircuit_witness :
    (process_query envClarify "Tell me about Midas").1
      = ⟨"Did you mean company X or Y?", 0⟩
    ∧ (process_query envClarify "Tell me about Midas").2
      = [Call.intentClassifier, Call.ambiguityModel] :=
  run_ambiguous_shortcircuit envClarify "Tell me about Midas"
    "Did you mean company X or Y?" iaTesla ambMidas rfl rfl rfl rfl
    (by decide) (by norm_num [ambMidas]) (by norm_num [ambMidas])

/-- The news loop never emits a cleaned content already in `seen`, and the
cleaned contents it emits are pairwise distinct. -/
theorem buildNewsItems_keys_nodup :
    ∀ (items : List EvidenceItem) (seen : List String),
      (∀ k ∈ (buildNewsItems items seen).map Prod.fst, k ∉ seen)
      ∧ ((buildNewsItems items seen).map Prod.fst).Nodup := by
  intro items
  induction items with
  | nil => intro seen; simp [buildNewsItems]
  | cons item rest ih =>
    intro seen
    by_cases h : (cleanNewsContent item.content).length < 20
        ∨ cleanNewsContent item.content ∈ seen
    · have hb : buildNewsItems (item :: rest) seen = buildNewsItems rest seen := by
        simp only [buildNewsItems]
        rw [if_pos h]
      rw [hb]
      exact ih seen
    · push_neg at h
      obtain ⟨hlen, hmem⟩ := h
      have hb : buildNewsItems (item :: rest) seen
          = (cleanNewsContent item.content,
              newsBullet (cleanNewsContent item.content) item.source item.url) ::
            buildNewsItems rest (cleanNewsContent item.content :: seen) := by
        simp only [buildNewsItems]
        rw [if_neg (by push_neg; exact ⟨hlen, hmem⟩)]
      have ih2 := ih (cleanNewsContent item.content :: seen)
      rw [hb]
      constructor
      · intro k hk
        simp only [List.map_cons, List.mem_cons] at hk
        cases hk with
        | inl hk => rw [hk]; exact hmem
        | inr hk =>
          have := ih2.1 k hk
          intro hkseen
          exact this (List.mem_cons_of_mem _ hkseen)
      · simp only [List.map_cons, List.nodup_cons]
        constructor
        · intro hk
          exact ih2.1 _ hk (List.mem_cons_self _ _)
        · exact ih2.2

/-- Claim C9: in the news branch of response synthesis, the emitted
bullets have pairwise-distinct cleaned contents (so two items with identical
cleaned content contribute one bullet), and the digest consists of at most
the first 3 surviving items. -/
theorem news_digest_dedup_take3 :
    ∀ (combined : List EvidenceItem) (v : ValidationResult),
      v.is_valid = true →
      isNewsQuery combined = true →
      buildNewsItems combined [] ≠ [] →
      (format_final_response (some v) combined
        = "Latest news:\n\n"
          ++ String.intercalate "\n\n" (((buildNewsItems combined []).take 3).map Prod.snd))
      ∧ ((buildNewsItems combined []).map Prod.fst).Nodup
      ∧ ((buildNewsItems combined []).take 3).length ≤ 3
      ∧ (buildNewsItems combined []).take 3 <+: buildNewsItems combined [] := by
  intro combined v hv hnews hitems
  have hne : combined ≠ [] := by
    intro h
    rw [h] at hnews
    simp [isNewsQuery] at hnews
  refine ⟨?_, (buildNewsItems_keys_nodup combined []).2, ?_, List.take_prefix 3 _⟩
  · cases combined with
    | nil => exact absurd rfl hne
    | cons first rest =>
      have hempty : (buildNewsItems (first :: rest) []).isEmpty = false := by
        cases hb : buildNewsItems (first :: rest) [] with
        | nil => exact absurd hb hitems
        | cons a l => rfl
      simp [format_final_response, hv, hnews, hempty]
  · rw [List.length_take]
    exact min_le_left 3 _

/-- Claim C9, witness: two news items whose contents differ in raw
whitespace and a bracketed annotation but clean to the same text survive as a
single bullet. -/
theorem news_digest_dedup_take3_witness :
    (buildNewsItems [newsItemA, newsItemB] []).length = 1
    ∧ (format_final_response (some newsVerdict) [newsItemA, newsItemB]
        = "Latest news:\n\n"
          ++ String.intercalate "\n\n"
            (((buildNewsItems [newsItemA, newsItemB] []).take 3).map Prod.snd))
      ∧ ((buildNewsItems [newsItemA, newsItemB] []).map Prod.fst).Nodup
      ∧ ((buildNewsItems [newsItemA, newsItemB] []).take 3).length ≤ 3
      ∧ (buildNewsItems [newsItemA, newsItemB] []).take 3
          <+: buildNewsItems [newsItemA, newsItemB] [] :=
  ⟨by decide,
   news_digest_dedup_take3 [newsItemA, newsItemB] newsVerdict rfl (by decide) (by decide)⟩
